import Mathlib

/-!
Shallow embedding of the store-billing application (src/another-up.py and
src/app.py) for verifying its specification.

Modelling conventions:
* SQLite REAL columns (prices, tax rates, amounts) are modelled as `ℚ`;
  the Python code performs only `+ - * /` on them, so the rational model
  computes the same values the float code computes up to floating rounding.
* INTEGER columns: `stock` is `Int` (the code can drive it negative),
  ids and quantities are `Nat`.
* The database is an explicit record of tables (lists of rows) plus the
  AUTOINCREMENT counters that the code relies on (`cur.lastrowid`).
* Each UI handler is embedded as a pure function from the database (and the
  relevant widget state, passed as arguments) to the new database.
  PDF drawing and message boxes have no database effect and are not modelled,
  except that a `Bool` result records whether a warning was surfaced where a
  claim mentions it.
-/

namespace Store

/-- One line of the in-memory cart (`self.cart` entries
`{'id', 'name', 'price', 'cost_price', 'tax_rate', 'qty'}`). -/
structure CartItem where
  id : Nat
  name : String
  price : ℚ
  cost_price : ℚ
  tax_rate : ℚ
  qty : Nat
deriving Repr, DecidableEq

/-- A row of the `products` table.  The display-only `description` column is
never read by any modelled operation and is omitted. -/
structure Product where
  id : Nat
  name : String
  category : String
  price : ℚ
  cost_price : ℚ
  stock : Int
  tax_rate : ℚ
  barcode : String
deriving Repr, DecidableEq

/-- A row of the `customers` table.  Columns `email`, `address`,
`total_purchases`, `last_visit` are never written by the operations of
src/another-up.py that the claims cite and are omitted. -/
structure Customer where
  id : Nat
  name : String
  phone : String
deriving Repr, DecidableEq

/-- A row of the `invoices` table. -/
structure Invoice where
  id : Nat
  invoice_number : String
  date : String
  customer_id : Option Nat
  subtotal : ℚ
  discount_name : String
  discount_percent : ℚ
  tax : ℚ
  total : ℚ
deriving Repr, DecidableEq

/-- A row of the `invoice_items` table (its own AUTOINCREMENT `id` is never
read and is omitted). -/
structure InvoiceItem where
  invoice_id : Nat
  product_id : Nat
  quantity : Nat
  price : ℚ
  cost_price : ℚ
  tax_rate : ℚ
deriving Repr, DecidableEq

/-- A row of the `ledgers` table. -/
structure Ledger where
  id : Nat
  name : String
deriving Repr, DecidableEq

/-- A row of the `ledger_entries` table. -/
structure LedgerEntry where
  id : Nat
  ledger_id : Nat
  entry_date : String
  particulars : String
  bill_amount : ℚ
  paid : ℚ
  remaining : ℚ
deriving Repr, DecidableEq

/-- The database: one list per table, plus the AUTOINCREMENT counters the
code observes through `cur.lastrowid`. -/
structure DB where
  products : List Product
  customers : List Customer
  invoices : List Invoice
  invoice_items : List InvoiceItem
  ledgers : List Ledger
  ledger_entries : List LedgerEntry
  next_customer_id : Nat
  next_invoice_id : Nat
deriving Repr, DecidableEq

/-- `subtotal = sum(i['price'] * i['qty'] for i in self.cart)`. -/
def cartSubtotal (cart : List CartItem) : ℚ :=
  (cart.map (fun i => i.price * (i.qty : ℚ))).sum

/-- `tax = sum(i['price'] * i['qty'] * i['tax_rate'] / 100 for i in self.cart)`. -/
def cartTax (cart : List CartItem) : ℚ :=
  (cart.map (fun i => i.price * (i.qty : ℚ) * i.tax_rate / 100)).sum

/-- The customer lookup/create block of `save_invoice`
(src/another-up.py lines 610-622): non-empty phone is looked up with
`SELECT id FROM customers WHERE phone=?`; on a miss a row
`(cust_name or "Walk-in", cust_phone)` is inserted; empty phone yields
`cust_id = None`.  Returns the new database and the resolved id. -/
def resolveCustomer (db : DB) (custName custPhone : String) : DB × Option Nat :=
  if custPhone = "" then (db, none)
  else
    match db.customers.find? (fun c => c.phone == custPhone) with
    | some c => (db, some c.id)
    | none =>
        let cid := db.next_customer_id
        ({ db with
            customers := db.customers ++
              [{ id := cid
                 name := if custName = "" then "Walk-in" else custName
                 phone := custPhone }]
            next_customer_id := cid + 1 },
         some cid)

/-- `UPDATE products SET stock=stock-? WHERE id=?`. -/
def decStock (ps : List Product) (pid : Nat) (q : Nat) : List Product :=
  ps.map (fun p => if p.id == pid then { p with stock := p.stock - (q : Int) } else p)

/-- The `invoice_items` row inserted for one cart line
(src/another-up.py lines 640-644): price, cost and tax are copied from the
cart line, i.e. snapshotted at sale time. -/
def mkItem (invId : Nat) (it : CartItem) : InvoiceItem :=
  { invoice_id := invId
    product_id := it.id
    quantity := it.qty
    price := it.price
    cost_price := it.cost_price
    tax_rate := it.tax_rate }

/-- `save_invoice` (src/another-up.py lines 599-646; the totals and insert
logic of src/app.py lines 292-327 is identical): an empty cart warns and
returns without touching the database; otherwise the customer is resolved,
the totals are computed
(`subtotal`, `tax`, `discount = subtotal*percent/100`,
`total = subtotal - discount + tax`), one `invoices` row is inserted, and
per cart line one `invoice_items` row is inserted and that product's stock
is decremented by the line quantity.  The returned `Bool` is `true` exactly
when the empty-cart warning was surfaced. -/
def save_invoice (db : DB) (cart : List CartItem)
    (invNum dateStr custName custPhone discName : String) (discPercent : ℚ) :
    DB × Bool :=
  if cart.isEmpty then (db, true)
  else
    let rc := resolveCustomer db custName custPhone
    let db1 := rc.1
    let custId := rc.2
    let subtotal := cartSubtotal cart
    let tax := cartTax cart
    let discount := subtotal * discPercent / 100
    let total := subtotal - discount + tax
    let invId := db1.next_invoice_id
    ({ db1 with
        invoices := db1.invoices ++
          [{ id := invId
             invoice_number := invNum
             date := dateStr
             customer_id := custId
             subtotal := subtotal
             discount_name := discName
             discount_percent := discPercent
             tax := tax
             total := total }]
        next_invoice_id := invId + 1
        invoice_items := db1.invoice_items ++ cart.map (mkItem invId)
        products := cart.foldl (fun acc it => decStock acc it.id it.qty) db1.products },
     false)

/-- Reloading a saved invoice by its number:
`SELECT * FROM invoices WHERE invoice_number=?` followed by
`SELECT ... FROM invoice_items ... WHERE ii.invoice_id=?`. -/
def load_invoice (db : DB) (invNum : String) : Option (Invoice × List InvoiceItem) :=
  (db.invoices.find? (fun i => i.invoice_number == invNum)).map
    (fun i => (i, db.invoice_items.filter (fun it => it.invoice_id == i.id)))

/-- The first-match quantity bump of `add_to_cart`
(`for item in self.cart: if item['id'] == prod_id: item['qty'] += qty; break`). -/
def bumpFirst (pid q : Nat) : List CartItem → List CartItem
  | [] => []
  | it :: rest =>
      if it.id == pid then { it with qty := it.qty + q } :: rest
      else it :: bumpFirst pid q rest

/-- `add_to_cart` (src/another-up.py lines 484-508, src/app.py lines 236-260):
a quantity above the displayed stock warns and leaves the cart unchanged;
otherwise the first cart line with the same product id has its quantity
increased, and only when no line matches is a new line appended. -/
def add_to_cart (cart : List CartItem) (prodId : Nat) (name : String)
    (price costPrice taxRate : ℚ) (qty stockShown : Nat) : List CartItem :=
  if stockShown < qty then cart
  else if cart.any (fun it => it.id == prodId) then bumpFirst prodId qty cart
  else cart ++
    [{ id := prodId, name := name, price := price, cost_price := costPrice
       tax_rate := taxRate, qty := qty }]

/-- `delete_product` (src/another-up.py lines 846-856): a confirmation
question is shown; only a Yes reply deletes the row. -/
def delete_product (db : DB) (pid : Nat) (confirmYes : Bool) : DB :=
  if confirmYes then
    { db with products := db.products.filter (fun p => !(p.id == pid)) }
  else db

/-- `delete_invoice` (src/another-up.py lines 1016-1031): a confirmation
question is shown; only a Yes reply deletes the `invoice_items` rows and the
`invoices` row. -/
def delete_invoice (db : DB) (invId : Nat) (confirmYes : Bool) : DB :=
  if confirmYes then
    { db with
        invoice_items := db.invoice_items.filter (fun it => !(it.invoice_id == invId))
        invoices := db.invoices.filter (fun i => !(i.id == invId)) }
  else db

/-- `delete_ledger_entry` (src/another-up.py lines 368-371): the row is
deleted immediately; the handler shows no confirmation dialog. -/
def delete_ledger_entry (db : DB) (entryId : Nat) : DB :=
  { db with ledger_entries := db.ledger_entries.filter (fun e => !(e.id == entryId)) }

/-- The ledger delete button's click path.  Unlike `delete_product` and
`delete_invoice`, the handler at src/another-up.py lines 368-371 shows no
QMessageBox, so the answer the user would give to a confirmation dialog is
never consulted. -/
def delete_ledger_entry_clicked (db : DB) (entryId : Nat)
    (_userWouldConfirm : Bool) : DB :=
  delete_ledger_entry db entryId

/-- Boolean date comparison used to mirror `ORDER BY entry_date` on the TEXT
column: SQLite BINARY collation compares bytes, which on the ASCII ISO dates
the code stores coincides with lexicographic order on the characters. -/
def dateLe (a b : String) : Bool :=
  !(decide (b.data < a.data))

/-- Stable insertion preserving the relative order of equal dates. -/
def insertEntry (e : LedgerEntry) : List LedgerEntry → List LedgerEntry
  | [] => [e]
  | x :: xs =>
      if dateLe x.entry_date e.entry_date then x :: insertEntry e xs
      else e :: x :: xs

/-- Stable sort by `entry_date`, modelling `ORDER BY entry_date`. -/
def sortByDate : List LedgerEntry → List LedgerEntry
  | [] => []
  | e :: es => insertEntry e (sortByDate es)

/-- `SELECT * FROM ledger_entries WHERE ledger_id=? ORDER BY entry_date`. -/
def entriesSorted (db : DB) (lid : Nat) : List LedgerEntry :=
  sortByDate (db.ledger_entries.filter (fun e => e.ledger_id == lid))

/-- `ledger_cell_changed` (src/another-up.py lines 339-366): the edited row
position is translated to an entry id with
`SELECT id ... WHERE ledger_id=? ORDER BY entry_date LIMIT 1 OFFSET ?`, and
that entry receives the four edited fields with
`remaining = bill - paid`.  `bill` and `paid` are the already-parsed cell
values (a parse failure only warns and writes nothing). -/
def ledger_cell_changed (db : DB) (ledgerName : String) (row : Nat)
    (dateText partText : String) (bill paid : ℚ) : DB :=
  match db.ledgers.find? (fun l => l.name == ledgerName) with
  | none => db
  | some l =>
      match (entriesSorted db l.id)[row]? with
      | none => db
      | some target =>
          { db with
              ledger_entries := db.ledger_entries.map (fun e =>
                if e.id == target.id then
                  { e with
                      entry_date := dateText
                      particulars := partText
                      bill_amount := bill
                      paid := paid
                      remaining := bill - paid }
                else e) }

/-- The database effects of `record_and_generate_pdf`
(src/another-up.py lines 671-716; the PDF drawing that follows has no
database effect).  Step 1 resolves/creates the customer from the passed
name/phone; step 2 inserts a dummy `invoices` row only when the invoice
number is not on file; step 3 recomputes the totals **from the current
billing-tab cart and discount widgets** and overwrites the invoice row
with them. -/
def record_and_generate_pdf (db : DB) (cart : List CartItem)
    (discName : String) (discPercent : ℚ)
    (invNum custName custPhone : String) : DB :=
  let rc : DB × Option Nat :=
    if custName = "" ∧ custPhone = "" then (db, (none : Option Nat))
    else
      match db.customers.find? (fun c => c.phone == custPhone) with
      | some c => (db, some c.id)
      | none =>
          let cid := db.next_customer_id
          ({ db with
              customers := db.customers ++
                [{ id := cid
                   name := if custName = "" then "Walk-in" else custName
                   phone := custPhone }]
              next_customer_id := cid + 1 },
           some cid)
  let db1 := rc.1
  let custId := rc.2
  let ri : DB × Nat :=
    match db1.invoices.find? (fun i => i.invoice_number == invNum) with
    | some i => (db1, i.id)
    | none =>
        let iid := db1.next_invoice_id
        ({ db1 with
            invoices := db1.invoices ++
              [{ id := iid, invoice_number := invNum, date := "", customer_id := custId
                 subtotal := 0, discount_name := "", discount_percent := 0
                 tax := 0, total := 0 }]
            next_invoice_id := iid + 1 },
         iid)
  let db2 := ri.1
  let invId := ri.2
  let subtotal := cartSubtotal cart
  let tax := cartTax cart
  let discount := subtotal * discPercent / 100
  let total := subtotal - discount + tax
  { db2 with
      invoices := db2.invoices.map (fun i =>
        if i.id == invId then
          { i with
              customer_id := custId
              subtotal := subtotal
              discount_name := discName
              discount_percent := discPercent
              tax := tax
              total := total }
        else i) }

/-- `open_history_pdf` (src/another-up.py lines 1087-1101): looks the
invoice up by number, resolves the display name/phone from its customer,
and calls `record_and_generate_pdf` with the **current** cart and discount
widget state. -/
def open_history_pdf (db : DB) (cart : List CartItem)
    (discName : String) (discPercent : ℚ) (invNum : String) : DB :=
  match db.invoices.find? (fun i => i.invoice_number == invNum) with
  | none => db
  | some inv =>
      let cust := inv.customer_id.bind (fun cid => db.customers.find? (fun c => c.id == cid))
      let cn := match cust with | some c => c.name | none => inv.invoice_number
      let cp := match cust with | some c => c.phone | none => ""
      record_and_generate_pdf db cart discName discPercent invNum cn cp

/-- Total quantity the cart holds for one product id; used to state the net
stock effect of the per-line `UPDATE products SET stock=stock-?` loop. -/
def cartQtyFor (cart : List CartItem) (pid : Nat) : Nat :=
  ((cart.filter (fun it => it.id == pid)).map (fun it => it.qty)).sum

/-- Concrete cart used by the witnesses: two distinct products. -/
def sampleCart : List CartItem :=
  [{ id := 1, name := "Shirt", price := 100, cost_price := 60, tax_rate := 18, qty := 2 },
   { id := 2, name := "Hat", price := 50, cost_price := 20, tax_rate := 5, qty := 1 }]

/-- Concrete ledger entries used by the witnesses; the entry with the larger
id carries the earlier date, so date order differs from id order. -/
def entryLate : LedgerEntry :=
  { id := 1, ledger_id := 1, entry_date := "2024-01-05", particulars := "rent"
    bill_amount := 5, paid := 2, remaining := 3 }

/-- Second concrete ledger entry, dated before `entryLate`. -/
def entryEarly : LedgerEntry :=
  { id := 2, ledger_id := 1, entry_date := "2024-01-02", particulars := "goods"
    bill_amount := 7, paid := 1, remaining := 6 }

/-- Concrete database used by the witnesses and counterexamples. -/
def sampleDB : DB :=
  { products :=
      [{ id := 1, name := "Shirt", category := "cloth", price := 100, cost_price := 60
         stock := 5, tax_rate := 18, barcode := "B1" },
       { id := 2, name := "Hat", category := "cloth", price := 50, cost_price := 20
         stock := 4, tax_rate := 5, barcode := "B2" },
       { id := 3, name := "Sock", category := "cloth", price := 10, cost_price := 4
         stock := 9, tax_rate := 12, barcode := "B3" }]
    customers := []
    invoices := []
    invoice_items := []
    ledgers := [{ id := 1, name := "Acme" }]
    ledger_entries := [entryLate, entryEarly]
    next_customer_id := 1
    next_invoice_id := 1 }

/-- The `invoices` row that `save_invoice` inserts for a non-empty cart. -/
def savedInvoice (db : DB) (cart : List CartItem)
    (invNum dateStr custName custPhone discName : String) (d : ℚ) : Invoice :=
  { id := db.next_invoice_id
    invoice_number := invNum
    date := dateStr
    customer_id := (resolveCustomer db custName custPhone).2
    subtotal := cartSubtotal cart
    discount_name := discName
    discount_percent := d
    tax := cartTax cart
    total := cartSubtotal cart - cartSubtotal cart * d / 100 + cartTax cart }

/-! ### Framing lemmas for the customer-resolution step -/

theorem resolveCustomer_products (db : DB) (n p : String) :
    (resolveCustomer db n p).1.products = db.products := by
  unfold resolveCustomer
  split
  · rfl
  · split <;> rfl

theorem resolveCustomer_invoices (db : DB) (n p : String) :
    (resolveCustomer db n p).1.invoices = db.invoices := by
  unfold resolveCustomer
  split
  · rfl
  · split <;> rfl

theorem resolveCustomer_invoice_items (db : DB) (n p : String) :
    (resolveCustomer db n p).1.invoice_items = db.invoice_items := by
  unfold resolveCustomer
  split
  · rfl
  · split <;> rfl

theorem resolveCustomer_next_invoice_id (db : DB) (n p : String) :
    (resolveCustomer db n p).1.next_invoice_id = db.next_invoice_id := by
  unfold resolveCustomer
  split
  · rfl
  · split <;> rfl

/-! ### Unfolding lemmas for `save_invoice` on a non-empty cart -/

theorem save_invoice_isEmpty_false {cart : List CartItem} (hne : cart ≠ []) :
    cart.isEmpty = false := List.isEmpty_eq_false.mpr hne

theorem save_invoice_invoices (db : DB) (cart : List CartItem)
    (invNum dateStr custName custPhone discName : String) (d : ℚ) (hne : cart ≠ []) :
    ((save_invoice db cart invNum dateStr custName custPhone discName d).1).invoices
      = db.invoices ++ [savedInvoice db cart invNum dateStr custName custPhone discName d] := by
  unfold save_invoice
  rw [save_invoice_isEmpty_false hne]
  simp only [Bool.false_eq_true, if_false, savedInvoice,
    resolveCustomer_invoices, resolveCustomer_next_invoice_id]

theorem save_invoice_items (db : DB) (cart : List CartItem)
    (invNum dateStr custName custPhone discName : String) (d : ℚ) (hne : cart ≠ []) :
    ((save_invoice db cart invNum dateStr custName custPhone discName d).1).invoice_items
      = db.invoice_items ++ cart.map (mkItem db.next_invoice_id) := by
  unfold save_invoice
  rw [save_invoice_isEmpty_false hne]
  simp only [Bool.false_eq_true, if_false,
    resolveCustomer_invoice_items, resolveCustomer_next_invoice_id]

theorem save_invoice_products (db : DB) (cart : List CartItem)
    (invNum dateStr custName custPhone discName : String) (d : ℚ) (hne : cart ≠ []) :
    ((save_invoice db cart invNum dateStr custName custPhone discName d).1).products
      = cart.foldl (fun acc it => decStock acc it.id it.qty) db.products := by
  unfold save_invoice
  rw [save_invoice_isEmpty_false hne]
  simp only [Bool.false_eq_true, if_false, resolveCustomer_products]

theorem save_invoice_customers (db : DB) (cart : List CartItem)
    (invNum dateStr custName custPhone discName : String) (d : ℚ) (hne : cart ≠ []) :
    ((save_invoice db cart invNum dateStr custName custPhone discName d).1).customers
      = (resolveCustomer db custName custPhone).1.customers := by
  unfold save_invoice
  rw [save_invoice_isEmpty_false hne]
  simp only [Bool.false_eq_true, if_false]

/-! ### List helper lemmas -/

theorem find?_append_of_none {α : Type} {p : α → Bool} {l1 l2 : List α}
    (h : ∀ a ∈ l1, p a = false) : (l1 ++ l2).find? p = l2.find? p := by
  rw [List.find?_append, List.find?_eq_none.mpr (by intro a ha; simp [h a ha])]
  rfl

theorem bumpFirst_map_id (pid q : Nat) (l : List CartItem) :
    (bumpFirst pid q l).map (fun it => it.id) = l.map (fun it => it.id) := by
  induction l with
  | nil => rfl
  | cons it rest ih =>
      unfold bumpFirst
      split
      · simp
      · simpa using ih

theorem bumpFirst_length (pid q : Nat) (l : List CartItem) :
    (bumpFirst pid q l).length = l.length := by
  have := congrArg List.length (bumpFirst_map_id pid q l)
  simpa using this

theorem mem_insertEntry {a e : LedgerEntry} {l : List LedgerEntry} :
    a ∈ insertEntry e l ↔ a = e ∨ a ∈ l := by
  induction l with
  | nil => simp [insertEntry]
  | cons x xs ih =>
      unfold insertEntry
      split
      · rw [List.mem_cons, ih, List.mem_cons]
        tauto
      · exact List.mem_cons

theorem mem_sortByDate {a : LedgerEntry} {l : List LedgerEntry} :
    a ∈ sortByDate l ↔ a ∈ l := by
  induction l with
  | nil => simp [sortByDate]
  | cons e es ih => simp [sortByDate, mem_insertEntry, ih]

theorem cartQtyFor_eq_zero {cart : List CartItem} {pid : Nat}
    (h : ∀ it ∈ cart, it.id ≠ pid) : cartQtyFor cart pid = 0 := by
  unfold cartQtyFor
  rw [List.filter_eq_nil_iff.mpr (by intro a ha; simpa using h a ha)]
  rfl

theorem foldl_decStock_eq_map (cart : List CartItem) (ps : List Product) :
    cart.foldl (fun acc it => decStock acc it.id it.qty) ps
      = ps.map (fun p => { p with stock := p.stock - (cartQtyFor cart p.id : Int) }) := by
  induction cart generalizing ps with
  | nil =>
      simp only [List.foldl_nil, cartQtyFor, List.filter_nil, List.map_nil,
        List.sum_nil, Nat.cast_zero, sub_zero]
      exact (List.map_id ps).symm
  | cons it rest ih =>
      rw [List.foldl_cons, ih, decStock, List.map_map]
      refine List.map_congr_left ?_
      intro p _
      simp only [Function.comp_apply]
      by_cases hp : p.id = it.id
      · have hb : (p.id == it.id) = true := beq_iff_eq.mpr hp
        have hb2 : (it.id == p.id) = true := beq_iff_eq.mpr hp.symm
        simp only [hb, hb2, if_true, cartQtyFor, List.filter_cons, List.map_cons,
          List.sum_cons]
        congr 1
        push_cast
        ring
      · have hb : (p.id == it.id) = false := beq_eq_false_iff_ne.mpr hp
        have hb2 : (it.id == p.id) = false := beq_eq_false_iff_ne.mpr (Ne.symm hp)
        simp [hb, hb2, cartQtyFor, List.filter_cons]

theorem cartQtyFor_of_nodup {cart : List CartItem} {pid : Nat} {it : CartItem}
    (hnodup : (cart.map (fun x => x.id)).Nodup) (hmem : it ∈ cart) (hid : it.id = pid) :
    cartQtyFor cart pid = it.qty := by
  induction cart with
  | nil => cases hmem
  | cons x rest ih =>
      simp only [List.map_cons, List.nodup_cons] at hnodup
      rcases List.mem_cons.mp hmem with h | h
      · subst h
        have hz : cartQtyFor rest pid = 0 := by
          refine cartQtyFor_eq_zero ?_
          intro y hy hcon
          exact hnodup.1 (by
            rw [hid, ← hcon]
            exact List.mem_map_of_mem (fun x => x.id) hy)
        unfold cartQtyFor
        rw [List.filter_cons_of_pos (by simp [hid])]
        simp only [List.map_cons, List.sum_cons]
        unfold cartQtyFor at hz
        omega
      · have hx : x.id ≠ pid := by
          intro hcon
          exact hnodup.1 (by
            rw [hcon, ← hid]
            exact List.mem_map_of_mem (fun x => x.id) h)
        unfold cartQtyFor
        rw [List.filter_cons_of_neg (by simp [hx])]
        exact ih hnodup.2 h

theorem find?_cart_of_nodup {cart : List CartItem} {pid : Nat} {it : CartItem}
    (hnodup : (cart.map (fun x => x.id)).Nodup) (hmem : it ∈ cart) (hid : it.id = pid) :
    cart.find? (fun x => x.id == pid) = some it := by
  induction cart with
  | nil => cases hmem
  | cons x rest ih =>
      simp only [List.map_cons, List.nodup_cons] at hnodup
      rcases List.mem_cons.mp hmem with h | h
      · subst h
        rw [List.find?_cons_of_pos _ (by simp [hid])]
      · have hx : x.id ≠ pid := by
          intro hcon
          exact hnodup.1 (by
            rw [hcon, ← hid]
            exact List.mem_map_of_mem (fun x => x.id) h)
        rw [List.find?_cons_of_neg _ (by simp [hx])]
        exact ih hnodup.2 h

/-! ### Claim theorems -/

/-- C1: for every non-empty cart and discount percent d in [0,100], the
invoice row persisted by `save_invoice` has
subtotal = Σ(unit_price × quantity),
tax = Σ(unit_price × quantity × tax_rate/100), computed per line on the
pre-discount amount, and total = subtotal − subtotal·d/100 + tax.  In the
exact rational model the equalities are exact, so the claimed 1e-6
floating-point tolerance holds with slack zero. -/
theorem c1_saved_invoice_totals (db : DB) (cart : List CartItem)
    (invNum dateStr custName custPhone discName : String) (d : ℚ)
    (hne : cart ≠ []) (h0 : 0 ≤ d) (h100 : d ≤ 100) :
    ∃ inv : Invoice,
      ((save_invoice db cart invNum dateStr custName custPhone discName d).1).invoices.getLast?
          = some inv ∧
      inv.subtotal = (cart.map (fun i => i.price * (i.qty : ℚ))).sum ∧
      inv.tax = (cart.map (fun i => i.price * (i.qty : ℚ) * i.tax_rate / 100)).sum ∧
      inv.total = inv.subtotal - inv.subtotal * d / 100 + inv.tax ∧
      |inv.total - (inv.subtotal - inv.subtotal * d / 100 + inv.tax)| ≤ 1 / 1000000 := by
  refine ⟨savedInvoice db cart invNum dateStr custName custPhone discName d, ?_, rfl, rfl,
    rfl, by simp only [savedInvoice]; rw [sub_self, abs_zero]; norm_num⟩
  rw [save_invoice_invoices db cart invNum dateStr custName custPhone discName d hne]
  exact List.getLast?_concat _

/-- Witness for C1: the sample cart `[Shirt 100×2 tax 18, Hat 50×1 tax 5]`
with a 10 percent discount. -/
theorem c1_saved_invoice_totals_witness :
    sampleCart ≠ [] ∧ (0:ℚ) ≤ 10 ∧ (10:ℚ) ≤ 100 ∧
    ∃ inv : Invoice,
      ((save_invoice sampleDB sampleCart "INV1" "2024-01-02" "Bob" "555" "Festive" 10).1).invoices.getLast?
          = some inv ∧
      inv.subtotal = (sampleCart.map (fun i => i.price * (i.qty : ℚ))).sum ∧
      inv.tax = (sampleCart.map (fun i => i.price * (i.qty : ℚ) * i.tax_rate / 100)).sum ∧
      inv.total = inv.subtotal - inv.subtotal * 10 / 100 + inv.tax ∧
      |inv.total - (inv.subtotal - inv.subtotal * 10 / 100 + inv.tax)| ≤ 1 / 1000000 :=
  ⟨by simp [sampleCart], by norm_num, by norm_num,
    c1_saved_invoice_totals sampleDB sampleCart "INV1" "2024-01-02" "Bob" "555" "Festive" 10
      (by simp [sampleCart]) (by norm_num) (by norm_num)⟩

/-- C4: with an empty cart, `save_invoice` returns the database untouched —
no invoice row, no invoice_items row, no customer row, no stock change —
and surfaces the empty-cart warning (the `true` component). -/
theorem c4_empty_cart_no_writes (db : DB)
    (invNum dateStr custName custPhone discName : String) (d : ℚ) :
    save_invoice db [] invNum dateStr custName custPhone discName d = (db, true) := rfl

/-- C7: for the invoice created by `save_invoice`, the sum over its
invoice_items of price × quantity equals the stored subtotal. -/
theorem c7_items_sum_eq_subtotal (db : DB) (cart : List CartItem)
    (invNum dateStr custName custPhone discName : String) (d : ℚ)
    (hne : cart ≠ [])
    (hfresh : ∀ it ∈ db.invoice_items, it.invoice_id ≠ db.next_invoice_id) :
    ∃ inv : Invoice,
      ((save_invoice db cart invNum dateStr custName custPhone discName d).1).invoices.getLast?
          = some inv ∧
      ((((save_invoice db cart invNum dateStr custName custPhone discName d).1).invoice_items.filter
          (fun it => it.invoice_id == inv.id)).map
            (fun it => it.price * (it.quantity : ℚ))).sum = inv.subtotal := by
  refine ⟨savedInvoice db cart invNum dateStr custName custPhone discName d, ?_, ?_⟩
  · rw [save_invoice_invoices db cart invNum dateStr custName custPhone discName d hne]
    exact List.getLast?_concat _
  · rw [save_invoice_items db cart invNum dateStr custName custPhone discName d hne,
      List.filter_append]
    have h1 : db.invoice_items.filter
        (fun it => it.invoice_id == (savedInvoice db cart invNum dateStr custName custPhone discName d).id)
          = [] := by
      rw [List.filter_eq_nil_iff]
      intro a ha
      simpa [savedInvoice] using hfresh a ha
    have h2 : (cart.map (mkItem db.next_invoice_id)).filter
        (fun it => it.invoice_id == (savedInvoice db cart invNum dateStr custName custPhone discName d).id)
          = cart.map (mkItem db.next_invoice_id) := by
      rw [List.filter_eq_self]
      intro a ha
      rcases List.mem_map.mp ha with ⟨c, hc, rfl⟩
      simp [mkItem, savedInvoice]
    rw [h1, h2, List.nil_append, List.map_map]
    rfl

/-- Witness for C7: the sample cart saved into the sample database. -/
theorem c7_items_sum_eq_subtotal_witness :
    sampleCart ≠ [] ∧
    (∀ it ∈ sampleDB.invoice_items, it.invoice_id ≠ sampleDB.next_invoice_id) ∧
    ∃ inv : Invoice,
      ((save_invoice sampleDB sampleCart "INV1" "2024-01-02" "Bob" "555" "" 0).1).invoices.getLast?
          = some inv ∧
      ((((save_invoice sampleDB sampleCart "INV1" "2024-01-02" "Bob" "555" "" 0).1).invoice_items.filter
          (fun it => it.invoice_id == inv.id)).map
            (fun it => it.price * (it.quantity : ℚ))).sum = inv.subtotal :=
  ⟨by simp [sampleCart], by simp [sampleDB],
    c7_items_sum_eq_subtotal sampleDB sampleCart "INV1" "2024-01-02" "Bob" "555" "" 0
      (by simp [sampleCart]) (by simp [sampleDB])⟩

/-- C3: an invoice saved from a non-empty cart and later reloaded by its
invoice number reproduces the exact saved subtotal, tax, discount_percent
and total, and the exact snapshotted line items (product_id, quantity,
price, cost_price, tax_rate copied from the cart at save time).  `db2`
ranges over every later database state whose `invoices` and
`invoice_items` tables still agree with the state right after the save —
in particular over any state obtained by editing, adding or deleting
`products` rows — so the reload is independent of later catalog edits. -/
theorem c3_round_trip (db : DB) (cart : List CartItem)
    (invNum dateStr custName custPhone discName : String) (d : ℚ) (db2 : DB)
    (hne : cart ≠ [])
    (hnum : ∀ i ∈ db.invoices, i.invoice_number ≠ invNum)
    (hfresh : ∀ it ∈ db.invoice_items, it.invoice_id ≠ db.next_invoice_id)
    (hinv : db2.invoices
      = ((save_invoice db cart invNum dateStr custName custPhone discName d).1).invoices)
    (hitems : db2.invoice_items
      = ((save_invoice db cart invNum dateStr custName custPhone discName d).1).invoice_items) :
    load_invoice db2 invNum
      = some (savedInvoice db cart invNum dateStr custName custPhone discName d,
              cart.map (mkItem db.next_invoice_id)) := by
  unfold load_invoice
  rw [hinv, hitems,
    save_invoice_invoices db cart invNum dateStr custName custPhone discName d hne,
    save_invoice_items db cart invNum dateStr custName custPhone discName d hne]
  rw [find?_append_of_none (fun i hi => beq_eq_false_iff_ne.mpr (hnum i hi))]
  rw [List.find?_cons_of_pos _ (by simp [savedInvoice])]
  rw [Option.map_some']
  refine congrArg some (congrArg _ ?_)
  rw [List.filter_append]
  have h1 : db.invoice_items.filter
      (fun it => it.invoice_id == (savedInvoice db cart invNum dateStr custName custPhone discName d).id)
        = [] := by
    rw [List.filter_eq_nil_iff]
    intro a ha
    simpa [savedInvoice] using hfresh a ha
  have h2 : (cart.map (mkItem db.next_invoice_id)).filter
      (fun it => it.invoice_id == (savedInvoice db cart invNum dateStr custName custPhone discName d).id)
        = cart.map (mkItem db.next_invoice_id) := by
    rw [List.filter_eq_self]
    intro a ha
    rcases List.mem_map.mp ha with ⟨c, hc, rfl⟩
    simp [mkItem, savedInvoice]
  rw [h1, h2, List.nil_append]

/-- Witness for C3: the sample save reloaded from a state in which the
Shirt product row was afterwards repriced and restocked. -/
theorem c3_round_trip_witness :
    sampleCart ≠ [] ∧
    (∀ i ∈ sampleDB.invoices, i.invoice_number ≠ "INV1") ∧
    (∀ it ∈ sampleDB.invoice_items, it.invoice_id ≠ sampleDB.next_invoice_id) ∧
    load_invoice
      { (save_invoice sampleDB sampleCart "INV1" "2024-01-02" "Bob" "555" "" 0).1 with
          products :=
            [{ id := 1, name := "Shirt", category := "cloth", price := 999, cost_price := 1
               stock := 200, tax_rate := 28, barcode := "B1" }] } "INV1"
      = some (savedInvoice sampleDB sampleCart "INV1" "2024-01-02" "Bob" "555" "" 0,
              sampleCart.map (mkItem sampleDB.next_invoice_id)) :=
  ⟨by simp [sampleCart], by simp [sampleDB], by simp [sampleDB],
    c3_round_trip sampleDB sampleCart "INV1" "2024-01-02" "Bob" "555" "" 0 _
      (by simp [sampleCart]) (by simp [sampleDB]) (by simp [sampleDB]) rfl rfl⟩

/-- C9: when an invoice is saved from a non-empty cart, the customer is
resolved from the entered phone: a non-empty phone already on file reuses
that customer's id; a non-empty phone not on file inserts a new customer
with that phone and the entered name ("Walk-in" when the name is blank)
and uses the fresh id; an empty phone creates no customer row and stores
a null customer_id on the invoice. -/
theorem c9_customer_resolution (db : DB) (cart : List CartItem)
    (invNum dateStr custName custPhone discName : String) (d : ℚ)
    (hne : cart ≠ []) :
    (custPhone = "" →
        ((save_invoice db cart invNum dateStr custName custPhone discName d).1).customers
            = db.customers ∧
        ((save_invoice db cart invNum dateStr custName custPhone discName d).1).invoices.getLast?.map
            (fun i => i.customer_id) = some none) ∧
    (custPhone ≠ "" →
        match db.customers.find? (fun c => c.phone == custPhone) with
        | some c =>
            ((save_invoice db cart invNum dateStr custName custPhone discName d).1).customers
                = db.customers ∧
            ((save_invoice db cart invNum dateStr custName custPhone discName d).1).invoices.getLast?.map
                (fun i => i.customer_id) = some (some c.id)
        | none =>
            ((save_invoice db cart invNum dateStr custName custPhone discName d).1).customers
                = db.customers ++
                  [{ id := db.next_customer_id
                     name := if custName = "" then "Walk-in" else custName
                     phone := custPhone }] ∧
            ((save_invoice db cart invNum dateStr custName custPhone discName d).1).invoices.getLast?.map
                (fun i => i.customer_id) = some (some db.next_customer_id)) := by
  have hcust := save_invoice_customers db cart invNum dateStr custName custPhone discName d hne
  have hinv := save_invoice_invoices db cart invNum dateStr custName custPhone discName d hne
  constructor
  · intro hp
    constructor
    · rw [hcust]
      unfold resolveCustomer
      rw [if_pos hp]
    · rw [hinv, List.getLast?_concat, Option.map_some']
      refine congrArg some ?_
      simp [savedInvoice, resolveCustomer, hp]
  · intro hp
    rcases hfind : db.customers.find? (fun c => c.phone == custPhone) with _ | c
    · simp only [hfind]
      constructor
      · rw [hcust]
        unfold resolveCustomer
        rw [if_neg hp, hfind]
      · rw [hinv, List.getLast?_concat, Option.map_some']
        refine congrArg some ?_
        simp [savedInvoice, resolveCustomer, hp, hfind]
    · simp only [hfind]
      constructor
      · rw [hcust]
        unfold resolveCustomer
        rw [if_neg hp, hfind]
      · rw [hinv, List.getLast?_concat, Option.map_some']
        refine congrArg some ?_
        simp [savedInvoice, resolveCustomer, hp, hfind]

/-- Witness for C9: saving with an unknown phone and a blank name inserts
the "Walk-in" customer with the fresh id 1. -/
theorem c9_customer_resolution_witness :
    sampleCart ≠ [] ∧
    (("555" : String) ≠ "" →
        match sampleDB.customers.find? (fun c => c.phone == "555") with
        | some c =>
            ((save_invoice sampleDB sampleCart "INV1" "2024-01-02" "" "555" "" 0).1).customers
                = sampleDB.customers ∧
            ((save_invoice sampleDB sampleCart "INV1" "2024-01-02" "" "555" "" 0).1).invoices.getLast?.map
                (fun i => i.customer_id) = some (some c.id)
        | none =>
            ((save_invoice sampleDB sampleCart "INV1" "2024-01-02" "" "555" "" 0).1).customers
                = sampleDB.customers ++
                  [{ id := sampleDB.next_customer_id
                     name := if ("" : String) = "" then "Walk-in" else ""
                     phone := "555" }] ∧
            ((save_invoice sampleDB sampleCart "INV1" "2024-01-02" "" "555" "" 0).1).invoices.getLast?.map
                (fun i => i.customer_id) = some (some sampleDB.next_customer_id)) :=
  ⟨by simp [sampleCart],
    (c9_customer_resolution sampleDB sampleCart "INV1" "2024-01-02" "" "555" "" 0
      (by simp [sampleCart])).2⟩

/-- C5: saving a non-empty cart (one line per product, as `add_to_cart`
maintains) decrements the stock of each product referenced by a cart line
by exactly that line's quantity, and leaves the stock of every product not
referenced by the cart unchanged.  The first conjunct gives the whole
`products` table pointwise; the other two restate it per row. -/
theorem c5_stock_decrement (db : DB) (cart : List CartItem)
    (invNum dateStr custName custPhone discName : String) (d : ℚ)
    (hne : cart ≠ [])
    (hnodup : (cart.map (fun it => it.id)).Nodup) :
    ((save_invoice db cart invNum dateStr custName custPhone discName d).1).products
        = db.products.map (fun p =>
            match cart.find? (fun it => it.id == p.id) with
            | some it => { p with stock := p.stock - (it.qty : Int) }
            | none => p) ∧
    (∀ p ∈ db.products, ∀ it ∈ cart, it.id = p.id →
        { p with stock := p.stock - (it.qty : Int) }
          ∈ ((save_invoice db cart invNum dateStr custName custPhone discName d).1).products) ∧
    (∀ p ∈ db.products, (∀ it ∈ cart, it.id ≠ p.id) →
        p ∈ ((save_invoice db cart invNum dateStr custName custPhone discName d).1).products) := by
  have hmap : ((save_invoice db cart invNum dateStr custName custPhone discName d).1).products
      = db.products.map (fun p =>
          match cart.find? (fun it => it.id == p.id) with
          | some it => { p with stock := p.stock - (it.qty : Int) }
          | none => p) := by
    rw [save_invoice_products db cart invNum dateStr custName custPhone discName d hne,
      foldl_decStock_eq_map]
    refine List.map_congr_left ?_
    intro p _
    rcases hf : cart.find? (fun it => it.id == p.id) with _ | it
    · have h0 : cartQtyFor cart p.id = 0 := by
        refine cartQtyFor_eq_zero ?_
        intro y hy hcon
        have := List.find?_eq_none.mp hf y hy
        simp [hcon] at this
      rw [h0, hf]
      simp
    · have hmem := List.mem_of_find?_eq_some hf
      have hid : it.id = p.id := by simpa using List.find?_some hf
      rw [cartQtyFor_of_nodup hnodup hmem hid, hf]
  refine ⟨hmap, ?_, ?_⟩
  · intro p hp it hit hid
    rw [hmap]
    refine List.mem_map.mpr ⟨p, hp, ?_⟩
    have hf := find?_cart_of_nodup hnodup hit hid
    show (match cart.find? (fun x => x.id == p.id) with
          | some it => { p with stock := p.stock - (it.qty : Int) }
          | none => p) = _
    rw [hf]
  · intro p hp hnone
    rw [hmap]
    refine List.mem_map.mpr ⟨p, hp, ?_⟩
    have hf : cart.find? (fun x => x.id == p.id) = none := by
      rw [List.find?_eq_none]
      intro x hx
      simpa using hnone x hx
    show (match cart.find? (fun x => x.id == p.id) with
          | some it => { p with stock := p.stock - (it.qty : Int) }
          | none => p) = _
    rw [hf]

/-- Witness for C5: saving the sample cart decrements Shirt from 5 to 3
and Hat from 4 to 3, and leaves Sock untouched. -/
theorem c5_stock_decrement_witness :
    sampleCart ≠ [] ∧
    (sampleCart.map (fun it => it.id)).Nodup ∧
    ((save_invoice sampleDB sampleCart "INV1" "2024-01-02" "Bob" "555" "" 0).1).products
        = sampleDB.products.map (fun p =>
            match sampleCart.find? (fun it => it.id == p.id) with
            | some it => { p with stock := p.stock - (it.qty : Int) }
            | none => p) :=
  ⟨by simp [sampleCart], by simp [sampleCart],
    (c5_stock_decrement sampleDB sampleCart "INV1" "2024-01-02" "Bob" "555" "" 0
      (by simp [sampleCart]) (by simp [sampleCart])).1⟩

/-- C10: adding to a cart whose lines have pairwise distinct product ids
keeps the ids pairwise distinct; when the product is already in the cart
(and the stock check passes) the cart length is unchanged, i.e. the
existing line is merged instead of a new line being appended; and the
invoice saved from such a cart has at most one invoice_items row per
product. -/
theorem c10_cart_unique_lines (cart : List CartItem) (prodId : Nat) (nm : String)
    (price costPrice taxRate : ℚ) (qty stockShown : Nat)
    (db : DB) (invNum dateStr custName custPhone discName : String) (d : ℚ)
    (hnodup : (cart.map (fun it => it.id)).Nodup)
    (hfresh : ∀ it ∈ db.invoice_items, it.invoice_id ≠ db.next_invoice_id) :
    ((add_to_cart cart prodId nm price costPrice taxRate qty stockShown).map
        (fun it => it.id)).Nodup ∧
    (cart.any (fun it => it.id == prodId) = true →
        (add_to_cart cart prodId nm price costPrice taxRate qty stockShown).length
          = cart.length) ∧
    ((((save_invoice db cart invNum dateStr custName custPhone discName d).1).invoice_items.filter
        (fun it => it.invoice_id == db.next_invoice_id)).map
          (fun it => it.product_id)).Nodup := by
  refine ⟨?_, ?_, ?_⟩
  · unfold add_to_cart
    by_cases hstock : stockShown < qty
    · rw [if_pos hstock]
      exact hnodup
    · rw [if_neg hstock]
      by_cases hany : cart.any (fun it => it.id == prodId) = true
      · rw [if_pos hany, bumpFirst_map_id]
        exact hnodup
      · rw [if_neg hany, List.map_append]
        rw [List.nodup_append]
        refine ⟨hnodup, List.nodup_singleton _, ?_⟩
        intro a ha hb
        have hb2 : a = prodId := by simpa using hb
        rcases List.mem_map.mp ha with ⟨it, hit, rfl⟩
        have := List.any_eq_false.mp (Bool.not_eq_true _ ▸ hany) it hit
        simp [hb2] at this
  · intro hany
    unfold add_to_cart
    by_cases hstock : stockShown < qty
    · rw [if_pos hstock]
    · rw [if_neg hstock, if_pos hany]
      exact bumpFirst_length prodId qty cart
  · by_cases hc : cart = []
    · subst hc
      have h4 : save_invoice db [] invNum dateStr custName custPhone discName d
          = (db, true) := rfl
      rw [h4]
      have hnil : db.invoice_items.filter (fun it => it.invoice_id == db.next_invoice_id)
          = [] := by
        rw [List.filter_eq_nil_iff]
        intro a ha
        simpa using hfresh a ha
      rw [hnil]
      exact List.nodup_nil
    · rw [save_invoice_items db cart invNum dateStr custName custPhone discName d hc,
        List.filter_append]
      have h1 : db.invoice_items.filter (fun it => it.invoice_id == db.next_invoice_id)
          = [] := by
        rw [List.filter_eq_nil_iff]
        intro a ha
        simpa using hfresh a ha
      have h2 : (cart.map (mkItem db.next_invoice_id)).filter
          (fun it => it.invoice_id == db.next_invoice_id)
            = cart.map (mkItem db.next_invoice_id) := by
        rw [List.filter_eq_self]
        intro a ha
        rcases List.mem_map.mp ha with ⟨c, hc2, rfl⟩
        simp [mkItem]
      rw [h1, h2, List.nil_append, List.map_map]
      exact hnodup

/-- Witness for C10: adding one more Shirt to the sample cart keeps one
line per product and the same number of lines, and the saved invoice has
one item row per product. -/
theorem c10_cart_unique_lines_witness :
    (sampleCart.map (fun it => it.id)).Nodup ∧
    (∀ it ∈ sampleDB.invoice_items, it.invoice_id ≠ sampleDB.next_invoice_id) ∧
    ((add_to_cart sampleCart 1 "Shirt" 100 60 18 1 5).map (fun it => it.id)).Nodup ∧
    (sampleCart.any (fun it => it.id == 1) = true →
        (add_to_cart sampleCart 1 "Shirt" 100 60 18 1 5).length = sampleCart.length) ∧
    ((((save_invoice sampleDB sampleCart "INV1" "2024-01-02" "Bob" "555" "" 0).1).invoice_items.filter
        (fun it => it.invoice_id == sampleDB.next_invoice_id)).map
          (fun it => it.product_id)).Nodup :=
  ⟨by simp [sampleCart], by simp [sampleDB],
    c10_cart_unique_lines sampleCart 1 "Shirt" 100 60 18 1 5
      sampleDB "INV1" "2024-01-02" "Bob" "555" "" 0
      (by simp [sampleCart]) (by simp [sampleDB])⟩

/-- C6: a ledger-entry edit identified by its row position — the ordinal
into the ledger's entries ordered by entry_date ascending — persists all
four editable fields of exactly that entry, with remaining recomputed as
bill − paid, and modifies no other entry: the resulting table is the old
table with only the targeted entry replaced. -/
theorem c6_ledger_edit_exact_row (db : DB) (ledgerName : String) (row : Nat)
    (dateText partText : String) (bill paid : ℚ) (l : Ledger) (target : LedgerEntry)
    (hfind : db.ledgers.find? (fun x => x.name == ledgerName) = some l)
    (hrow : (entriesSorted db l.id)[row]? = some target)
    (hnodup : (db.ledger_entries.map (fun e => e.id)).Nodup) :
    (ledger_cell_changed db ledgerName row dateText partText bill paid).ledger_entries
      = db.ledger_entries.map (fun e =>
          if e = target then
            { target with
                entry_date := dateText
                particulars := partText
                bill_amount := bill
                paid := paid
                remaining := bill - paid }
          else e) := by
  have htmem : target ∈ db.ledger_entries := by
    have h1 : target ∈ entriesSorted db l.id := List.getElem?_mem hrow
    have h2 : target ∈ db.ledger_entries.filter (fun e => e.ledger_id == l.id) := by
      unfold entriesSorted at h1
      exact mem_sortByDate.mp h1
    exact (List.mem_filter.mp h2).1
  simp only [ledger_cell_changed, hfind, hrow]
  refine List.map_congr_left ?_
  intro e he
  by_cases hid : e.id = target.id
  · have heq : e = target := List.inj_on_of_nodup_map hnodup he htmem hid
    subst heq
    simp
  · have hbe : (e.id == target.id) = false := beq_eq_false_iff_ne.mpr hid
    have hne2 : e ≠ target := fun h => hid (congrArg (fun x => x.id) h)
    simp [hbe, hne2]

/-- Witness for C6: in the sample ledger the second row in date order is
the entry with id 1 (it has the later date but the smaller id); editing
row 1 rewrites exactly that entry with remaining = 9 − 4. -/
theorem c6_ledger_edit_exact_row_witness :
    sampleDB.ledgers.find? (fun x => x.name == "Acme") = some { id := 1, name := "Acme" } ∧
    (entriesSorted sampleDB 1)[1]? = some entryLate ∧
    (sampleDB.ledger_entries.map (fun e => e.id)).Nodup ∧
    (ledger_cell_changed sampleDB "Acme" 1 "2024-01-06" "rent b" 9 4).ledger_entries
      = sampleDB.ledger_entries.map (fun e =>
          if e = entryLate then
            { entryLate with
                entry_date := "2024-01-06"
                particulars := "rent b"
                bill_amount := 9
                paid := 4
                remaining := 9 - 4 }
          else e) :=
  ⟨by simp [sampleDB], by decide, by simp [sampleDB, entryLate, entryEarly],
    c6_ledger_edit_exact_row sampleDB "Acme" 1 "2024-01-06" "rent b" 9 4
      { id := 1, name := "Acme" } entryLate
      (by simp [sampleDB]) (by decide) (by simp [sampleDB, entryLate, entryEarly])⟩

/-- C8 counterexample: the ledger-entry delete handler shows no
confirmation dialog, so even when the user would decline the confirmation
the targeted row is removed — refuting the claim that every destructive
operation removes its row only after an accepted confirmation. -/
theorem c8_ledger_delete_without_confirmation :
    sampleDB.ledger_entries.length = 2 ∧
    (delete_ledger_entry_clicked sampleDB 1 false).ledger_entries = [entryEarly] :=
  ⟨rfl, rfl⟩

/-- C8 amended: delete product and delete invoice remove their target rows
only after an accepted confirmation and a declined confirmation removes
nothing, while delete ledger entry removes its target row immediately,
consulting no confirmation at all. -/
theorem c8_confirmed_deletes (db : DB) (pid invId entryId : Nat) :
    delete_product db pid false = db ∧
    delete_invoice db invId false = db ∧
    (∀ p ∈ (delete_product db pid true).products, p.id ≠ pid) ∧
    (∀ i ∈ (delete_invoice db invId true).invoices, i.id ≠ invId) ∧
    (∀ it ∈ (delete_invoice db invId true).invoice_items, it.invoice_id ≠ invId) ∧
    (∀ b : Bool, ∀ e ∈ (delete_ledger_entry_clicked db entryId b).ledger_entries,
        e.id ≠ entryId) := by
  refine ⟨rfl, rfl, ?_, ?_, ?_, ?_⟩
  · intro p hp
    have hp2 : p ∈ db.products.filter (fun q => !(q.id == pid)) := hp
    simpa using List.of_mem_filter hp2
  · intro i hi
    have hi2 : i ∈ db.invoices.filter (fun q => !(q.id == invId)) := hi
    simpa using List.of_mem_filter hi2
  · intro it hit
    have hit2 : it ∈ db.invoice_items.filter (fun q => !(q.invoice_id == invId)) := hit
    simpa using List.of_mem_filter hit2
  · intro b e he
    have he2 : e ∈ db.ledger_entries.filter (fun q => !(q.id == entryId)) := he
    simpa using List.of_mem_filter he2

/-- Witness for C8 (amended): a declined delete leaves the sample database
unchanged. -/
theorem c8_confirmed_deletes_witness :
    delete_product sampleDB 7 false = sampleDB :=
  (c8_confirmed_deletes sampleDB 7 7 1).1

/-- C2: the code violates the claim.  Saving the sample cart stores
subtotal 250, tax 38.5, total 288.5; regenerating the PDF from the
history view afterwards (current billing cart empty, discount widget 0)
runs record_and_generate_pdf, which recomputes the totals from that empty
cart and UPDATEs the invoice row, zeroing subtotal, tax and total. -/
theorem c2_history_pdf_overwrites_invoice :
    ((save_invoice sampleDB sampleCart "INV1" "2024-01-02" "Bob" "555" "" 0).1).invoices.map
        (fun i => (i.subtotal, i.tax, i.total))
      = [(250, 77/2, 577/2)] ∧
    (open_history_pdf ((save_invoice sampleDB sampleCart "INV1" "2024-01-02" "Bob" "555" "" 0).1)
        [] "" 0 "INV1").invoices.map (fun i => (i.subtotal, i.tax, i.total))
      = [(0, 0, 0)] := by
  have hne : sampleCart ≠ [] := by simp [sampleCart]
  have hinv : ((save_invoice sampleDB sampleCart "INV1" "2024-01-02" "Bob" "555" "" 0).1).invoices
      = [savedInvoice sampleDB sampleCart "INV1" "2024-01-02" "Bob" "555" "" 0] := by
    rw [save_invoice_invoices sampleDB sampleCart "INV1" "2024-01-02" "Bob" "555" "" 0 hne]
    rfl
  have hcust : ((save_invoice sampleDB sampleCart "INV1" "2024-01-02" "Bob" "555" "" 0).1).customers
      = [{ id := 1, name := "Bob", phone := "555" }] := by
    rw [save_invoice_customers sampleDB sampleCart "INV1" "2024-01-02" "Bob" "555" "" 0 hne]
    simp [resolveCustomer, sampleDB]
  constructor
  · rw [hinv]
    simp [savedInvoice, cartSubtotal, cartTax, sampleCart]
    norm_num
  · have key : ∀ db1 : DB,
        db1.invoices = [savedInvoice sampleDB sampleCart "INV1" "2024-01-02" "Bob" "555" "" 0] →
        db1.customers = [{ id := 1, name := "Bob", phone := "555" }] →
        (open_history_pdf db1 [] "" 0 "INV1").invoices.map (fun i => (i.subtotal, i.tax, i.total))
          = [(0, 0, 0)] := by
      intro db1 hinv1 hcust1
      simp [open_history_pdf, record_and_generate_pdf, hinv1, hcust1, savedInvoice,
        resolveCustomer, sampleDB, cartSubtotal, cartTax]
    exact key _ hinv hcust

end Store
